import Mathlib

/-!
Shallow embedding of the manim-api job orchestration and subprocess render
pipeline, together with proofs about each component.

Embedded source functions (names kept from the TypeScript source):
* `runDockerCommand` (compiler, lines 147-178): the process runner, modelled as
  a total function over the single child-process event (`close` or `error`)
  that resolves its promise.
* `findRenderedVideo` (compiler, lines 183-218): the artifact locator, over an
  abstract listing of the candidate quality directories.
* `compileVideo` (compiler, lines 14-142): the render pipeline, over an
  environment of oracle outcomes (possible setup exception, process event,
  media filesystem, upload outcome); it returns the `CompilationResult`
  together with the ordered trace of filesystem/side-effect events performed.
  `rmSync` inside `cleanupTempFiles` is modelled as succeeding.
* `JobQueueManager` (jobQueue.ts): `createJob`, and `processJob` split at its
  single `await` boundary into `processJobStart` (synchronous part up to and
  including dispatching `compileVideo`) and `processJobFinish` / `applyResult`
  (the continuation after the render resolves).  JavaScript run-to-completion
  semantics make these the only observable intermediate states.
-/

namespace ManimApi

/-- JavaScript `String.prototype.includes` over character lists: does `pat`
occur as a contiguous (case-sensitive) substring? -/
def listIncludes (pat : List Char) : List Char → Bool
  | [] => List.isPrefixOf pat []
  | c :: rest => List.isPrefixOf pat (c :: rest) || listIncludes pat rest

/-- JavaScript `s.includes(pat)`. -/
def jsIncludes (s pat : String) : Bool := listIncludes pat.data s.data

/-- JavaScript `s.endsWith(suff)` over character lists. -/
def listEndsWith (l suff : List Char) : Bool := List.isPrefixOf suff.reverse l.reverse

/-- The artifact-extension test `f.endsWith(".mp4")` from the locator. -/
def isMp4 (f : String) : Bool := listEndsWith f.data ".mp4".data

/-- `path.join` for the two-segment joins used in the pipeline. -/
def pathJoin (a b : String) : String := a ++ "/" ++ b

/-- Word character of the JavaScript regex class `\w`. -/
def isWordChar (c : Char) : Bool := c.isAlphanum || c = '_'

/-- Consume the literal `pat` from the front of `cs`; `none` if it is not
there. -/
def dropLit : List Char → List Char → Option (List Char)
  | [], cs => some cs
  | _ :: _, [] => none
  | p :: ps, c :: cs => if c = p then dropLit ps cs else none

/-- Greedily consume whitespace (`\s*`). -/
def dropSpaces : List Char → List Char
  | [] => []
  | c :: cs => if c.isWhitespace then dropSpaces cs else c :: cs

/-- Greedily take word characters (`\w*`), returning them and the rest. -/
def takeWord : List Char → List Char × List Char
  | [] => ([], [])
  | c :: cs =>
    if isWordChar c then
      let (w, r) := takeWord cs
      (c :: w, r)
    else ([], c :: cs)

/-- Match the regex `class\s+(\w+)\s*\(\s*Scene\s*\)` anchored at the start of
`cs`, returning the capture group.  Greedy matching without backtracking is
equivalent here because the character classes of adjacent regex pieces are
disjoint. -/
def matchClassAt (cs : List Char) : Option String :=
  match dropLit "class".data cs with
  | none => none
  | some cs1 =>
    match cs1 with
    | [] => none
    | c :: _ =>
      if c.isWhitespace then
        let cs2 := dropSpaces cs1
        match takeWord cs2 with
        | ([], _) => none
        | (w, cs3) =>
          let cs4 := dropSpaces cs3
          match dropLit "(".data cs4 with
          | none => none
          | some cs5 =>
            let cs6 := dropSpaces cs5
            match dropLit "Scene".data cs6 with
            | none => none
            | some cs7 =>
              let cs8 := dropSpaces cs7
              match dropLit ")".data cs8 with
              | none => none
              | some _ => some (String.mk w)
      else none

/-- Leftmost match of the scene-class regex, as `code.match(...)` finds it. -/
def scanSceneName : List Char → Option String
  | [] => none
  | c :: rest =>
    match matchClassAt (c :: rest) with
    | some w => some w
    | none => scanSceneName rest

/-- Scene-name extraction of `compileVideo` lines 35-36: the regex capture, or
the default identifier `"Scene"`. -/
def sceneNameOf (code : String) : String := (scanSceneName code.data).getD "Scene"

/-- The resolved value of the `runDockerCommand` promise. -/
structure RunResult where
  stdout : String
  stderr : String
  exitCode : Int
deriving DecidableEq, Repr

/-- The single event that settles the `runDockerCommand` promise: either the
child's `close` event (with its possibly-null exit code and the accumulated
streams), or the `error` event of a spawn failure. -/
inductive ProcEvent where
  | closed (stdout stderr : String) (code : Option Int)
  | spawnError (stdout stderr : String) (errMsg : String)
deriving DecidableEq, Repr

/-- JavaScript `code || 0` where `code : number | null`: both `null` and `0`
are falsy. -/
def jsOrZero : Option Int → Int
  | none => 0
  | some c => if c = 0 then 0 else c

/-- `runDockerCommand` lines 147-178.  The executor only ever calls `resolve`
(never `reject`), so the promise is modelled as a total function of the
settling event.  On `close` it resolves `{stdout, stderr, exitCode: code || 0}`;
on `error` it resolves `{stdout, stderr: error.message, exitCode: 1}`. -/
def runDockerCommand : ProcEvent → RunResult
  | .closed out err code => { stdout := out, stderr := err, exitCode := jsOrZero code }
  | .spawnError out _ msg => { stdout := out, stderr := msg, exitCode := 1 }

/-- Abstract state of the media output tree: for each quality directory name
`q`, whether `<mediaDir>/videos/scene/<q>` exists, and if so its `readdirSync`
listing in directory order. -/
structure MediaFS where
  dir : String → Option (List String)

/-- The fixed ordered candidate list of `findRenderedVideo` line 187. -/
def qualityDirs : List String := ["480p15", "720p30", "1080p60", "2160p60"]

/-- Per-directory selection of `findRenderedVideo` lines 200-210: first file
whose name ends in `.mp4` and contains the scene name, else first `.mp4`. -/
def pickVideoFile (files : List String) (sceneName : String) : Option String :=
  match files.find? (fun f => isMp4 f && jsIncludes f sceneName) with
  | some v => some v
  | none => files.find? (fun f => isMp4 f)

/-- The path `path.join(mediaDir, 'videos', 'scene', q, v)` returned by the
locator. -/
def candidatePath (mediaDir q v : String) : String :=
  pathJoin (pathJoin (pathJoin (pathJoin mediaDir "videos") "scene") q) v

/-- The directory loop of `findRenderedVideo` lines 189-211. -/
def searchDirs (fs : MediaFS) (mediaDir sceneName : String) : List String → Option String
  | [] => none
  | q :: rest =>
    match fs.dir q with
    | none => searchDirs fs mediaDir sceneName rest
    | some files =>
      match pickVideoFile files sceneName with
      | some v => some (candidatePath mediaDir q v)
      | none => searchDirs fs mediaDir sceneName rest

/-- `findRenderedVideo` lines 183-218 (the `catch` arm for a `readdirSync`
exception is not modelled; directory reads succeed). -/
def findRenderedVideo (fs : MediaFS) (mediaDir sceneName : String) : Option String :=
  searchDirs fs mediaDir sceneName qualityDirs

/-- `CompilationResult.errorDetails` from types/index.ts lines 50-55. -/
structure ErrorDetails where
  stderr : Option String := none
  stdout : Option String := none
  message : Option String := none
  statusCode : Option Int := none
deriving DecidableEq, Repr

/-- `CompilationResult` from types/index.ts lines 46-56. -/
structure CompilationResult where
  url : String
  logs : String
  error : Option String := none
  errorDetails : Option ErrorDetails := none
deriving DecidableEq, Repr

/-- Side-effect events of one `compileVideo` run, in execution order. -/
inductive Ev where
  | mkTemp | writeScene | runProc | readArtifact | uploadEv | cleanup
deriving DecidableEq, Repr

/-- Outcome of `uploadVideoToSupabase`: a resolved URL or a thrown error whose
message is `msg` (the storage gateway is an external collaborator). -/
inductive UploadOutcome where
  | ok (url : String)
  | err (msg : String)
deriving DecidableEq, Repr

/-- Oracle environment for one `compileVideo` invocation: the working
directory, a possible exception from `writeFileSync` (representing a setup
failure inside the `try`, after `mkdirSync`), the event settling the docker
subprocess, the resulting media tree, and the upload outcome.  `readFileSync`
of the found artifact is modelled as succeeding. -/
structure CompilerEnv where
  cwd : String
  writeThrow : Option String
  proc : ProcEvent
  fs : MediaFS
  upload : UploadOutcome

/-- `path.join(process.cwd(), 'temp', jobId)` — the per-job workspace. -/
def tempDirOf (env : CompilerEnv) (jobId : String) : String :=
  pathJoin (pathJoin env.cwd "temp") jobId

/-- `path.join(tempDir, 'media')` — the renderer output root. -/
def outputDirOf (env : CompilerEnv) (jobId : String) : String :=
  pathJoin (tempDirOf env jobId) "media"

/-- `compileVideo` lines 14-142.  Returns the `CompilationResult` and the
ordered trace of side-effect events.  Branches, in source order: the `catch`
arm for a setup exception (lines 126-141), the non-zero-exit arm (65-83), the
artifact-not-found arm (88-104), the `catch` arm for an upload exception
(126-141 again), and the success path (108-125). -/
def compileVideo (env : CompilerEnv) (jobId code : String) :
    CompilationResult × List Ev :=
  let sceneName := sceneNameOf code
  match env.writeThrow with
  | some msg =>
    ({ url := "", logs := "Error during compilation: " ++ msg, error := some msg },
     [.mkTemp, .cleanup])
  | none =>
    let r := runDockerCommand env.proc
    if r.exitCode ≠ 0 then
      ({ url := "",
         logs := "Docker execution failed (exit code " ++ toString r.exitCode ++ ")",
         error := some (if r.stderr = "" then "Unknown compilation error" else r.stderr),
         errorDetails := some { stderr := some r.stderr, stdout := some r.stdout,
                                message := some ("Docker process exited with code " ++
                                  toString r.exitCode),
                                statusCode := some r.exitCode } },
       [.mkTemp, .writeScene, .runProc, .cleanup])
    else
      match findRenderedVideo env.fs (outputDirOf env jobId) sceneName with
      | none =>
        ({ url := "", logs := "Compilation succeeded but video file not found",
           error := some "Video file not found in output directory",
           errorDetails := some { stderr := some r.stderr, stdout := some r.stdout,
                                  message := some "Video file not found after rendering" } },
         [.mkTemp, .writeScene, .runProc, .cleanup])
      | some _videoPath =>
        match env.upload with
        | .err msg =>
          ({ url := "", logs := "Error during compilation: " ++ msg, error := some msg },
           [.mkTemp, .writeScene, .runProc, .readArtifact, .cleanup])
        | .ok url =>
          ({ url := url,
             logs := "Render job completed successfully. Job ID: " ++ jobId ++
               ". Video uploaded to Supabase: " ++ url ++
               "\n\nCompilation output:\n" ++ r.stdout },
           [.mkTemp, .writeScene, .runProc, .readArtifact, .uploadEv, .cleanup])

/-- Whether `temp/<jobId>` exists after running the trace, starting from
existence state `b`: `mkTemp` creates it, `cleanup` removes it. -/
def tempExistsAfter (b : Bool) (tr : List Ev) : Bool :=
  tr.foldl (fun s e => match e with | .mkTemp => true | .cleanup => false | _ => s) b

/-- `JobStatus` from types/index.ts lines 22-27. -/
inductive JobStatus where
  | pending | processing | completed | failed
deriving DecidableEq, Repr

/-- `Job` from types/index.ts lines 29-38; timestamps are abstract `Nat`
instants. -/
structure Job where
  jobId : String
  code : String
  status : JobStatus
  url : Option String := none
  logs : Option String := none
  error : Option String := none
  createdAt : Nat
  completedAt : Option Nat := none
deriving DecidableEq, Repr

/-- The job literal built by `createJob` (jobQueue.ts lines 18-23). -/
def newJob (jobId code : String) (now : Nat) : Job :=
  { jobId := jobId, code := code, status := .pending, createdAt := now }

/-- The mutation `job.status = JobStatus.PROCESSING` (jobQueue.ts line 66). -/
def startJob (j : Job) : Job := { j with status := .processing }

/-- JavaScript truthiness of `result.error : string | undefined`: truthy
exactly when present and non-empty. -/
def jsTruthy : Option String → Bool
  | none => false
  | some s => !s.isEmpty

/-- The mutations of jobQueue.ts lines 73-85 applied after `compileVideo`
resolves: branch on `if (result.error)`, then set `completedAt`. -/
def applyResult (j : Job) (r : CompilationResult) (now : Nat) : Job :=
  if jsTruthy r.error then
    { j with status := .failed, error := r.error, logs := some r.logs,
             completedAt := some now }
  else
    { j with status := .completed, url := some r.url, logs := some r.logs,
             completedAt := some now }

/-- State of the `JobQueueManager` singleton: the `jobs` map (association list
with `Map.set` replace-or-append semantics) plus the history of job ids for
which a render (`compileVideo` call, jobQueue.ts line 70) has been started. -/
structure QState where
  jobs : List (String × Job)
  rendersStarted : List String
deriving DecidableEq, Repr

/-- `this.jobs.get(k)`. -/
def jobsGet (m : List (String × Job)) (k : String) : Option Job :=
  match m.find? (fun p => p.1 == k) with
  | some p => some p.2
  | none => none

/-- `this.jobs.set(k, v)`: replace an existing entry or append a new one. -/
def jobsSet (m : List (String × Job)) (k : String) (v : Job) : List (String × Job) :=
  match m with
  | [] => [(k, v)]
  | (k', v') :: rest => if k' == k then (k, v) :: rest else (k', v') :: jobsSet rest k v

/-- `createJob` (jobQueue.ts lines 17-34): unconditionally build a fresh
pending job, `set` it into the map, dispatch `processJob`, and return the job.
The dispatched `processJob` runs synchronously up to its first `await`; that
part is `processJobStart` below. -/
def createJob (st : QState) (jobId code : String) (now : Nat) : QState × Job :=
  let job := newJob jobId code now
  ({ st with jobs := jobsSet st.jobs jobId job }, job)

/-- `processJob` lines 57-70 up to and including the call of `compileVideo`:
fetch the job (return unchanged if absent), set it to processing, and start
a render for this id. -/
def processJobStart (st : QState) (jobId : String) : QState :=
  match jobsGet st.jobs jobId with
  | none => st
  | some job =>
    { jobs := jobsSet st.jobs jobId (startJob job),
      rendersStarted := st.rendersStarted ++ [jobId] }

/-- The states one `Job` record passes through.  Each `Job` object is mutated
only by the `createJob`/`processJob` pair that created it (a duplicate
`createJob` builds a fresh object), and since `createJob` and the head of
`processJob` run synchronously, the transitions are: created pending, then
started from pending, then finished from processing. -/
inductive JobReachable : Job → Prop where
  | created (jobId code : String) (now : Nat) : JobReachable (newJob jobId code now)
  | started {j : Job} : JobReachable j → j.status = .pending → JobReachable (startJob j)
  | finished {j : Job} (r : CompilationResult) (now : Nat) :
      JobReachable j → j.status = .processing → JobReachable (applyResult j r now)

/-- A concrete media tree with one artifact `Alpha.mp4` in the `480p15`
candidate directory. -/
def fsAlpha : MediaFS :=
  ⟨fun q => if q = "480p15" then some ["Alpha.mp4"] else none⟩

/-- A concrete media tree used for the locator witness: `480p15` is absent and
`720p30` holds a text file, a non-matching video and a matching video. -/
def fsW : MediaFS :=
  ⟨fun q => if q = "720p30" then some ["notes.txt", "other.mp4", "AlphaScene.mp4"] else none⟩

/-- Environment of a render whose subprocess succeeds with diagnostic output
`"RENDER OUTPUT 42"`, whose artifact is found, and whose upload throws. -/
def envC7 : CompilerEnv :=
  { cwd := "", writeThrow := none,
    proc := .closed "RENDER OUTPUT 42" "" (some 0),
    fs := fsAlpha,
    upload := .err "Storage upload failed" }

/-- Environment identical to `envC7` except that the upload throws an error
whose message is the empty string. -/
def envC9 : CompilerEnv :=
  { cwd := "", writeThrow := none,
    proc := .closed "out" "" (some 0),
    fs := fsAlpha,
    upload := .err "" }

/-- Environment of a fully successful render and upload. -/
def envOk : CompilerEnv :=
  { cwd := "", writeThrow := none,
    proc := .closed "rendered fine" "" (some 0),
    fs := fsAlpha,
    upload := .ok "https://sb/videos/j.mp4" }

/-- Environment of a render whose subprocess exits 1 with diagnostics. -/
def envFail : CompilerEnv :=
  { cwd := "", writeThrow := none,
    proc := .closed "partial out" "Traceback: boom" (some 1),
    fs := fsAlpha,
    upload := .ok "unused" }

/-- Environment of a render whose subprocess exits 0 but writes no artifact. -/
def envNoArtifact : CompilerEnv :=
  { cwd := "", writeThrow := none,
    proc := .closed "claimed success" "warning text" (some 0),
    fs := ⟨fun _ => none⟩,
    upload := .ok "unused" }

/-- Queue run in which the same job id is submitted twice: second submission
happens while the first job is still processing. -/
def dupRun : QState :=
  let s1 := (createJob ⟨[], []⟩ "j" "print(1)" 0).1
  let s2 := processJobStart s1 "j"
  let s3 := (createJob s2 "j" "print(1)" 1).1
  processJobStart s3 "j"

/-- The intermediate state of `dupRun` just before the duplicate submission. -/
def dupRunMid : QState :=
  processJobStart ((createJob ⟨[], []⟩ "j" "print(1)" 0).1) "j"

/-- Looking up a key right after `Map.set` on that key yields the value set. -/
theorem jobsGet_jobsSet_self (m : List (String × Job)) (k : String) (v : Job) :
    jobsGet (jobsSet m k v) k = some v := by
  induction m with
  | nil => simp [jobsSet, jobsGet]
  | cons hd tl ih =>
    obtain ⟨k', v'⟩ := hd
    by_cases h : k' == k
    · simp [jobsSet, h, jobsGet]
    · simp only [jobsSet, h, if_false, Bool.false_eq_true]
      simpa [jobsGet, h] using ih

/-- The per-directory selection finds nothing exactly when the directory
holds no file with the artifact extension. -/
theorem pickVideoFile_eq_none (files : List String) (hint : String) :
    pickVideoFile files hint = none ↔ files.find? (fun f => isMp4 f) = none := by
  unfold pickVideoFile
  cases h : files.find? (fun f => isMp4 f && jsIncludes f hint) with
  | none => simp
  | some v =>
    simp only [reduceCtorEq, false_iff]
    intro hm
    have hv := List.find?_some h
    have hvm : v ∈ files := List.mem_of_find?_eq_some h
    rw [List.find?_eq_none] at hm
    exact hm v hvm (by simp only [Bool.and_eq_true] at hv; exact hv.1)

/-- The directory loop returns `none` exactly when every existing candidate
directory holds no file with the artifact extension. -/
theorem searchDirs_eq_none_iff (fs : MediaFS) (d hint : String) (L : List String) :
    searchDirs fs d hint L = none ↔
      ∀ q ∈ L, ∀ files, fs.dir q = some files →
        files.find? (fun f => isMp4 f) = none := by
  induction L with
  | nil => simp [searchDirs]
  | cons q rest ih =>
    cases hq : fs.dir q with
    | none =>
      simp only [searchDirs, hq]
      rw [ih]
      constructor
      · intro h p hp files hf
        rcases List.mem_cons.mp hp with h1 | h1
        · subst h1; rw [hq] at hf; cases hf
        · exact h p h1 files hf
      · intro h p hp files hf
        exact h p (List.mem_cons_of_mem _ hp) files hf
    | some files =>
      cases hpick : pickVideoFile files hint with
      | some v =>
        simp only [searchDirs, hq, hpick, reduceCtorEq, false_iff]
        intro h
        have h1 := h q (List.mem_cons_self q rest) files hq
        have h2 : pickVideoFile files hint = none :=
          (pickVideoFile_eq_none files hint).mpr h1
        rw [hpick] at h2
        cases h2
      | none =>
        simp only [searchDirs, hq, hpick]
        rw [ih]
        constructor
        · intro h p hp fl hf
          rcases List.mem_cons.mp hp with h1 | h1
          · subst h1; rw [hq] at hf
            injection hf with hfe
            rw [← hfe]
            exact (pickVideoFile_eq_none files hint).mp hpick
          · exact h p h1 fl hf
        · intro h p hp fl hf
          exact h p (List.mem_cons_of_mem _ hp) fl hf

/-- Candidate directories in which no artifact is found are skipped without
affecting the search over the remaining candidates. -/
theorem searchDirs_append (fs : MediaFS) (d hint : String) (pre rest : List String)
    (h : ∀ p ∈ pre, ∀ fl, fs.dir p = some fl →
      fl.find? (fun f => isMp4 f) = none) :
    searchDirs fs d hint (pre ++ rest) = searchDirs fs d hint rest := by
  induction pre with
  | nil => rfl
  | cons p ps ih =>
    have htl : ∀ x ∈ ps, ∀ fl, fs.dir x = some fl →
        fl.find? (fun f => isMp4 f) = none :=
      fun x hx fl hf => h x (List.mem_cons_of_mem _ hx) fl hf
    rw [List.cons_append]
    cases hq : fs.dir p with
    | none =>
      simp only [searchDirs, hq]
      exact ih htl
    | some fl =>
      have hpick : pickVideoFile fl hint = none :=
        (pickVideoFile_eq_none fl hint).mpr (h p (List.mem_cons_self p ps) fl hq)
      simp only [searchDirs, hq, hpick]
      exact ih htl

/-- C10: `runDockerCommand` always resolves (it is a total function of the
settling event and never rejects); on `close` it resolves with the accumulated
streams and an exit code equal to the child's close code, except that a null
close code is reported as exit code 0 — so a signal-killed child is
indistinguishable from a successful exit — and on a spawn `error` event it
resolves with exit code 1 and the spawn error message as stderr. -/
theorem runDockerCommand_event_semantics (out err msg : String) (c : Int) :
    runDockerCommand (.closed out err none) =
      { stdout := out, stderr := err, exitCode := 0 }
    ∧ runDockerCommand (.closed out err (some c)) =
      { stdout := out, stderr := err, exitCode := c }
    ∧ runDockerCommand (.closed out err none) =
      runDockerCommand (.closed out err (some 0))
    ∧ runDockerCommand (.spawnError out err msg) =
      { stdout := out, stderr := msg, exitCode := 1 } := by
  refine ⟨rfl, ?_, rfl, rfl⟩
  simp only [runDockerCommand, jsOrZero, RunResult.mk.injEq, true_and]
  by_cases h : c = 0
  · simp [h]
  · simp [h]

/-- C4, counterexample: a spawn failure is reported with exit code 1, which is
not a reserved negative value and is identical to the result of an ordinary
subprocess exit with code 1 carrying the same stderr text — so the spawn
signal is not distinguishable from every ordinary exit code. -/
theorem spawn_failure_not_negative :
    runDockerCommand (.spawnError "" "" "spawn docker ENOENT") =
      { stdout := "", stderr := "spawn docker ENOENT", exitCode := 1 }
    ∧ ¬ (runDockerCommand (.spawnError "" "" "spawn docker ENOENT")).exitCode < 0
    ∧ runDockerCommand (.spawnError "" "" "spawn docker ENOENT") =
        runDockerCommand (.closed "" "spawn docker ENOENT" (some 1)) := by
  decide

/-- C4, amended: the process runner never rejects — every outcome, including a
non-zero exit, is returned as an ordinary result — and a process-spawn failure
is surfaced by resolving with exit code 1 (a non-negative, ordinary exit-code
value) and the spawn error message placed in the stderr field. -/
theorem runDockerCommand_spawn_convention (out err msg : String) (c : Int) :
    runDockerCommand (.spawnError out err msg) =
      { stdout := out, stderr := msg, exitCode := 1 }
    ∧ ¬ (runDockerCommand (.spawnError out err msg)).exitCode < 0
    ∧ runDockerCommand (.closed out err (some c)) =
      { stdout := out, stderr := err, exitCode := jsOrZero (some c) } := by
  refine ⟨rfl, by simp [runDockerCommand], rfl⟩

/-- C1, counterexample: submitting job id `"j"` a second time while a job with
that id is still in the table is neither rejected nor answered with the
existing job — `createJob` returns a fresh pending job distinct from the
stored one — and a second render for `"j"` is started, so two renders run for
one id. -/
theorem createJob_duplicate_double_render :
    (jobsGet dupRunMid.jobs "j").isSome = true
    ∧ (createJob dupRunMid "j" "print(1)" 1).2 ≠
        (jobsGet dupRunMid.jobs "j").getD (newJob "" "" 0)
    ∧ dupRun.rendersStarted = ["j", "j"] := by
  decide

/-- C1, amended: `createJob` never deduplicates: even when a job with the same
id is already in the table, it overwrites the entry with a fresh pending job
and dispatches `processJob` again, which starts another render for that id
whenever the entry is present. -/
theorem createJob_overwrites_and_redispatches (st : QState) (jobId code : String)
    (now : Nat) (_dup : jobsGet st.jobs jobId ≠ none) :
    jobsGet (createJob st jobId code now).1.jobs jobId = some (newJob jobId code now)
    ∧ (processJobStart (createJob st jobId code now).1 jobId).rendersStarted
        = (createJob st jobId code now).1.rendersStarted ++ [jobId] := by
  constructor
  · exact jobsGet_jobsSet_self st.jobs jobId (newJob jobId code now)
  · simp only [createJob, processJobStart, jobsGet_jobsSet_self]

/-- C1, witness for the amended theorem at a concrete duplicate submission. -/
theorem createJob_overwrites_and_redispatches_witness :
    jobsGet (createJob dupRunMid "j" "x" 5).1.jobs "j" = some (newJob "j" "x" 5)
    ∧ (processJobStart (createJob dupRunMid "j" "x" 5).1 "j").rendersStarted
        = (createJob dupRunMid "j" "x" 5).1.rendersStarted ++ ["j"] :=
  createJob_overwrites_and_redispatches dupRunMid "j" "x" 5 (by decide)

/-- C8: along the lifecycle of every job record — freshly created, set to
processing, or finished with a compilation result — `completedAt` is set if
and only if the job's status is terminal (`completed` or `failed`). -/
theorem job_completedAt_iff_terminal (j : Job) (h : JobReachable j) :
    j.completedAt.isSome = true ↔
      (j.status = .completed ∨ j.status = .failed) := by
  induction h with
  | created jobId code now => simp [newJob]
  | started hr hp ih =>
    rename_i j0
    have hni : j0.completedAt = none := by
      cases hcc : j0.completedAt with
      | none => rfl
      | some t =>
        have h2 := ih.mp (by rw [hcc]; rfl)
        rw [hp] at h2
        simp at h2
    simp [startJob, hni]
  | finished r now hr hp ih =>
    unfold applyResult
    split <;> simp

/-- C8, witness: the invariant instantiated at a freshly created job. -/
theorem job_completedAt_iff_terminal_witness :
    ((newJob "j" "c" 0).completedAt.isSome = true ↔
      ((newJob "j" "c" 0).status = .completed ∨ (newJob "j" "c" 0).status = .failed)) :=
  job_completedAt_iff_terminal (newJob "j" "c" 0) (JobReachable.created "j" "c" 0)

/-- C2: on every exit path of `compileVideo` — setup exception, non-zero
subprocess exit, artifact-not-found, upload exception, and success — the
per-job workspace `temp/<jobId>` does not exist when `compileVideo` returns
(whatever its prior existence state `b`), and on the success path the artifact
bytes are read out of the workspace strictly before the workspace is
removed. -/
theorem compileVideo_workspace_removed (env : CompilerEnv) (jobId code : String)
    (b : Bool) :
    tempExistsAfter b (compileVideo env jobId code).2 = false
    ∧ ((compileVideo env jobId code).1.error = none →
        (compileVideo env jobId code).2.indexOf Ev.readArtifact <
          (compileVideo env jobId code).2.indexOf Ev.cleanup
        ∧ Ev.readArtifact ∈ (compileVideo env jobId code).2) := by
  cases hwt : env.writeThrow with
  | some msg =>
    have h2 : (compileVideo env jobId code).2 = [.mkTemp, .cleanup] := by
      simp [compileVideo, hwt]
    have he : (compileVideo env jobId code).1.error = some msg := by
      simp [compileVideo, hwt]
    rw [h2, he]
    exact ⟨rfl, (fun hc => Option.noConfusion hc)⟩
  | none =>
    by_cases hx : (runDockerCommand env.proc).exitCode = 0
    · cases hf : findRenderedVideo env.fs (outputDirOf env jobId) (sceneNameOf code) with
      | none =>
        have h2 : (compileVideo env jobId code).2 =
            [.mkTemp, .writeScene, .runProc, .cleanup] := by
          simp [compileVideo, hwt, hx, hf]
        have he : (compileVideo env jobId code).1.error =
            some "Video file not found in output directory" := by
          simp [compileVideo, hwt, hx, hf]
        rw [h2, he]
        exact ⟨rfl, (fun hc => Option.noConfusion hc)⟩
      | some p =>
        cases hu : env.upload with
        | err msg =>
          have h2 : (compileVideo env jobId code).2 =
              [.mkTemp, .writeScene, .runProc, .readArtifact, .cleanup] := by
            simp [compileVideo, hwt, hx, hf, hu]
          have he : (compileVideo env jobId code).1.error = some msg := by
            simp [compileVideo, hwt, hx, hf, hu]
          rw [h2, he]
          exact ⟨rfl, (fun hc => Option.noConfusion hc)⟩
        | ok url =>
          have h2 : (compileVideo env jobId code).2 =
              [.mkTemp, .writeScene, .runProc, .readArtifact, .uploadEv, .cleanup] := by
            simp [compileVideo, hwt, hx, hf, hu]
          rw [h2]
          exact ⟨rfl, fun _ => by decide⟩
    · have h2 : (compileVideo env jobId code).2 =
          [.mkTemp, .writeScene, .runProc, .cleanup] := by
        simp [compileVideo, hwt, hx]
      have he : (compileVideo env jobId code).1.error =
          some (if (runDockerCommand env.proc).stderr = ""
            then "Unknown compilation error" else (runDockerCommand env.proc).stderr) := by
        simp [compileVideo, hwt, hx]
      rw [h2, he]
      exact ⟨rfl, (fun hc => Option.noConfusion hc)⟩

/-- C2, witness: the workspace property at a concrete fully successful run. -/
theorem compileVideo_workspace_removed_witness :
    tempExistsAfter true (compileVideo envOk "j" "c").2 = false
    ∧ ((compileVideo envOk "j" "c").2.indexOf Ev.readArtifact <
        (compileVideo envOk "j" "c").2.indexOf Ev.cleanup
      ∧ Ev.readArtifact ∈ (compileVideo envOk "j" "c").2) :=
  ⟨(compileVideo_workspace_removed envOk "j" "c" true).1,
   (compileVideo_workspace_removed envOk "j" "c" true).2 (by decide)⟩

/-- C3: the artifact locator enumerates the fixed ordered candidate list
`qualityDirs`; it returns NotFound (`none`) exactly when no existing candidate
directory holds a file with the `.mp4` extension; and for the first candidate
directory that yields a file, the file returned is the first one whose name
both ends in `.mp4` and contains the hint as a case-sensitive substring, with
fallback to the first `.mp4` file when no name matches the hint. -/
theorem findRenderedVideo_locator_spec (fs : MediaFS) (d hint : String) :
    (findRenderedVideo fs d hint = none ↔
       ∀ q ∈ qualityDirs, ∀ files, fs.dir q = some files →
         files.find? (fun f => isMp4 f) = none)
    ∧ (∀ pre q post files, qualityDirs = pre ++ q :: post →
         (∀ p ∈ pre, ∀ fl, fs.dir p = some fl →
           fl.find? (fun f => isMp4 f) = none) →
         fs.dir q = some files →
         ((∀ v, files.find? (fun f => isMp4 f && jsIncludes f hint) = some v →
             findRenderedVideo fs d hint = some (candidatePath d q v))
          ∧ (files.find? (fun f => isMp4 f && jsIncludes f hint) = none →
             ∀ v, files.find? (fun f => isMp4 f) = some v →
             findRenderedVideo fs d hint = some (candidatePath d q v)))) := by
  constructor
  · exact searchDirs_eq_none_iff fs d hint qualityDirs
  · intro pre q post files hsplit hpre hq
    have hrw : findRenderedVideo fs d hint = searchDirs fs d hint (q :: post) := by
      unfold findRenderedVideo
      rw [hsplit]
      exact searchDirs_append fs d hint pre (q :: post) hpre
    constructor
    · intro v hv
      rw [hrw]
      simp only [searchDirs, hq]
      unfold pickVideoFile
      rw [hv]
    · intro hnone v hv
      rw [hrw]
      simp only [searchDirs, hq]
      unfold pickVideoFile
      rw [hnone, hv]

/-- C3, witness: on a tree whose first candidate directory is absent and whose
second holds a text file, a non-matching video and a hint-matching video, the
locator returns the hint-matching video from the second directory. -/
theorem findRenderedVideo_locator_spec_witness :
    findRenderedVideo fsW "m" "Alpha" =
      some (candidatePath "m" "720p30" "AlphaScene.mp4") := by
  refine ((findRenderedVideo_locator_spec fsW "m" "Alpha").2 ["480p15"] "720p30"
    ["1080p60", "2160p60"] ["notes.txt", "other.mp4", "AlphaScene.mp4"] (by decide)
    ?_ (by decide)).1 "AlphaScene.mp4" (by decide)
  intro p hp fl hf
  have hp1 : p = "480p15" := by simpa using hp
  subst hp1
  simp [fsW] at hf

/-- C5: whenever the subprocess exits 0 but the locator finds no artifact, the
pipeline returns the distinct artifact-missing outcome, carrying the captured
stderr and stdout in its diagnostic details; it is never a success outcome
(`error` is set) and never the render-failure outcome (its logs, error message
and details differ, and in particular no exit code is attached, whereas the
render-failure outcome always carries `statusCode`). -/
theorem compileVideo_artifact_missing (env : CompilerEnv) (jobId code : String)
    (hw : env.writeThrow = none)
    (hx : (runDockerCommand env.proc).exitCode = 0)
    (hf : findRenderedVideo env.fs (outputDirOf env jobId) (sceneNameOf code) = none) :
    (compileVideo env jobId code).1 =
      { url := "", logs := "Compilation succeeded but video file not found",
        error := some "Video file not found in output directory",
        errorDetails := some { stderr := some (runDockerCommand env.proc).stderr,
                               stdout := some (runDockerCommand env.proc).stdout,
                               message := some "Video file not found after rendering" } }
    ∧ (compileVideo env jobId code).1.error ≠ none
    ∧ Option.bind (compileVideo env jobId code).1.errorDetails
        ErrorDetails.statusCode = none := by
  have h1 : (compileVideo env jobId code).1 =
      { url := "", logs := "Compilation succeeded but video file not found",
        error := some "Video file not found in output directory",
        errorDetails := some { stderr := some (runDockerCommand env.proc).stderr,
                               stdout := some (runDockerCommand env.proc).stdout,
                               message := some "Video file not found after rendering" } } := by
    simp [compileVideo, hw, hx, hf]
  refine ⟨h1, (by rw [h1]; simp), (by rw [h1]; simp [Option.bind])⟩

/-- C5, witness: the artifact-missing outcome at a concrete run whose
subprocess exits 0 over an empty media tree. -/
theorem compileVideo_artifact_missing_witness :
    (compileVideo envNoArtifact "j" "c").1 =
      { url := "", logs := "Compilation succeeded but video file not found",
        error := some "Video file not found in output directory",
        errorDetails := some { stderr := some (runDockerCommand envNoArtifact.proc).stderr,
                               stdout := some (runDockerCommand envNoArtifact.proc).stdout,
                               message := some "Video file not found after rendering" } }
    ∧ (compileVideo envNoArtifact "j" "c").1.error ≠ none
    ∧ Option.bind (compileVideo envNoArtifact "j" "c").1.errorDetails
        ErrorDetails.statusCode = none :=
  compileVideo_artifact_missing envNoArtifact "j" "c" rfl (by decide) (by decide)

/-- C6: whenever the subprocess exits non-zero, the pipeline returns the
render-failure outcome whose diagnostic details carry the captured stderr text
verbatim together with the captured stdout and the exit code; the top-level
`error` field is the verbatim stderr whenever stderr is non-empty. -/
theorem compileVideo_nonzero_exit (env : CompilerEnv) (jobId code : String)
    (hw : env.writeThrow = none)
    (hx : (runDockerCommand env.proc).exitCode ≠ 0) :
    (compileVideo env jobId code).1 =
      { url := "",
        logs := "Docker execution failed (exit code " ++
          toString (runDockerCommand env.proc).exitCode ++ ")",
        error := some (if (runDockerCommand env.proc).stderr = ""
          then "Unknown compilation error" else (runDockerCommand env.proc).stderr),
        errorDetails := some { stderr := some (runDockerCommand env.proc).stderr,
                               stdout := some (runDockerCommand env.proc).stdout,
                               message := some ("Docker process exited with code " ++
                                 toString (runDockerCommand env.proc).exitCode),
                               statusCode := some (runDockerCommand env.proc).exitCode } }
    ∧ ((runDockerCommand env.proc).stderr ≠ "" →
        (compileVideo env jobId code).1.error = some (runDockerCommand env.proc).stderr) := by
  have h1 : (compileVideo env jobId code).1 =
      { url := "",
        logs := "Docker execution failed (exit code " ++
          toString (runDockerCommand env.proc).exitCode ++ ")",
        error := some (if (runDockerCommand env.proc).stderr = ""
          then "Unknown compilation error" else (runDockerCommand env.proc).stderr),
        errorDetails := some { stderr := some (runDockerCommand env.proc).stderr,
                               stdout := some (runDockerCommand env.proc).stdout,
                               message := some ("Docker process exited with code " ++
                                 toString (runDockerCommand env.proc).exitCode),
                               statusCode := some (runDockerCommand env.proc).exitCode } } := by
    simp [compileVideo, hw, hx]
  exact ⟨h1, fun hs => (by rw [h1]; simp [hs])⟩

/-- C6, witness: the verbatim stderr surfaced at a concrete failed run. -/
theorem compileVideo_nonzero_exit_witness :
    (compileVideo envFail "j" "c").1.error = some (runDockerCommand envFail.proc).stderr :=
  (compileVideo_nonzero_exit envFail "j" "c" rfl (by decide)).2 (by decide)

/-- C7, counterexample: at a run whose render succeeds with compilation output
`"RENDER OUTPUT 42"` and whose upload throws, the job is marked failed with
only the upload exception message in `error` and
`"Error during compilation: ..."` in `logs`; neither field contains the
subprocess's compilation output, and the result carries no structured
diagnostic details — so no error kind distinguishes storage failure from any
other exception, and the render's diagnostic log is not retrievable on the
failed job. -/
theorem upload_failure_loses_render_log :
    (applyResult (startJob (newJob "j" "src" 0)) (compileVideo envC7 "j" "src").1 5).status
      = .failed
    ∧ (applyResult (startJob (newJob "j" "src" 0)) (compileVideo envC7 "j" "src").1 5).logs =
        some "Error during compilation: Storage upload failed"
    ∧ (applyResult (startJob (newJob "j" "src" 0)) (compileVideo envC7 "j" "src").1 5).error =
        some "Storage upload failed"
    ∧ jsIncludes "Error during compilation: Storage upload failed" "RENDER OUTPUT 42" = false
    ∧ jsIncludes "Storage upload failed" "RENDER OUTPUT 42" = false
    ∧ (compileVideo envC7 "j" "src").1.errorDetails = none := by
  decide

/-- C7, amended: when the render succeeds but the upload throws with message
`msg`, the result carries no storage-specific error kind and the subprocess's
compilation output is not retained on the job; `logs` become the generic catch
text `"Error during compilation: <message>"` — the same shape as any other
caught exception.  If `msg` is non-empty the job is marked failed with `error`
equal to `msg`; if `msg` is empty, the falsy `result.error` check makes
`processJob` mark the job completed with `url = ""` instead. -/
theorem upload_failure_marks_failed (env : CompilerEnv) (jobId code : String)
    (j : Job) (now : Nat) (msg : String)
    (hw : env.writeThrow = none)
    (hx : (runDockerCommand env.proc).exitCode = 0)
    (hf : findRenderedVideo env.fs (outputDirOf env jobId) (sceneNameOf code) ≠ none)
    (hu : env.upload = .err msg) :
    (msg ≠ "" →
      applyResult j (compileVideo env jobId code).1 now =
        { j with status := .failed, error := some msg,
                 logs := some ("Error during compilation: " ++ msg),
                 completedAt := some now })
    ∧ (msg = "" →
      applyResult j (compileVideo env jobId code).1 now =
        { j with status := .completed, url := some "",
                 logs := some ("Error during compilation: " ++ msg),
                 completedAt := some now }) := by
  cases hfv : findRenderedVideo env.fs (outputDirOf env jobId) (sceneNameOf code) with
  | none => exact absurd hfv hf
  | some p =>
    have h1 : (compileVideo env jobId code).1 =
        { url := "", logs := "Error during compilation: " ++ msg, error := some msg } := by
      simp [compileVideo, hw, hx, hfv, hu]
    rw [h1]
    constructor
    · intro hm
      have hie : msg.isEmpty = false := by
        rw [← Bool.not_eq_true]
        intro hc
        exact hm ((String.isEmpty_iff msg).mp hc)
      simp [applyResult, jsTruthy, hie]
    · intro hm
      subst hm
      have hft : jsTruthy (some "") = false := by decide
      simp [applyResult, hft]

/-- C7, witness for the amended theorem at the concrete upload-failure run
with a non-empty exception message. -/
theorem upload_failure_marks_failed_witness :
    applyResult (startJob (newJob "j" "src" 0)) (compileVideo envC7 "j" "src").1 5 =
      { startJob (newJob "j" "src" 0) with
          status := .failed,
          error := some "Storage upload failed",
          logs := some ("Error during compilation: " ++ "Storage upload failed"),
          completedAt := some 5 } :=
  (upload_failure_marks_failed envC7 "j" "src" (startJob (newJob "j" "src" 0)) 5
    "Storage upload failed" rfl (by decide) (by decide) rfl).1 (by decide)

/-- C9, counterexample: on the upload-exception failure path with an exception
whose message is the empty string, `compileVideo` returns `url = ""` but
`error` set to the empty string — a failure whose error field is present yet
not a non-empty string. -/
theorem compileVideo_empty_error_message :
    (compileVideo envC9 "j" "c").1.url = ""
    ∧ (compileVideo envC9 "j" "c").1.error = some ""
    ∧ (compileVideo envC9 "j" "c").1.error.getD "x" = "" := by
  decide

/-- C9, amended: `compileVideo` is a total function of its oracles (it never
throws); the error field is absent exactly on the single success path — error
absent implies the success conditions with `url` equal to the upload result,
and conversely the success conditions imply error absent with `url` the upload
result; every failure path returns `url = ""` with `error` present; on the
non-zero-exit path the error string is non-empty; and on the exception paths
(setup exception, upload exception) the error equals the exception message
verbatim — which may therefore be empty. -/
theorem compileVideo_error_partition (env : CompilerEnv) (jobId code : String) :
    ((compileVideo env jobId code).1.error = none →
       env.writeThrow = none
       ∧ (runDockerCommand env.proc).exitCode = 0
       ∧ findRenderedVideo env.fs (outputDirOf env jobId) (sceneNameOf code) ≠ none
       ∧ env.upload = .ok (compileVideo env jobId code).1.url)
    ∧ ((compileVideo env jobId code).1.error ≠ none →
       (compileVideo env jobId code).1.url = "")
    ∧ (env.writeThrow = none → (runDockerCommand env.proc).exitCode ≠ 0 →
       (compileVideo env jobId code).1.error.getD "" ≠ "")
    ∧ (∀ url2, env.writeThrow = none → (runDockerCommand env.proc).exitCode = 0 →
       findRenderedVideo env.fs (outputDirOf env jobId) (sceneNameOf code) ≠ none →
       env.upload = .ok url2 →
       (compileVideo env jobId code).1.error = none
       ∧ (compileVideo env jobId code).1.url = url2)
    ∧ (∀ msg, env.writeThrow = some msg →
       (compileVideo env jobId code).1.error = some msg)
    ∧ (∀ msg, env.writeThrow = none → (runDockerCommand env.proc).exitCode = 0 →
       findRenderedVideo env.fs (outputDirOf env jobId) (sceneNameOf code) ≠ none →
       env.upload = .err msg →
       (compileVideo env jobId code).1.error = some msg) := by
  cases hwt : env.writeThrow with
  | some msg0 =>
    have he : (compileVideo env jobId code).1.error = some msg0 := by
      simp [compileVideo, hwt]
    have hu : (compileVideo env jobId code).1.url = "" := by
      simp [compileVideo, hwt]
    rw [he, hu]
    exact ⟨(fun hc => Option.noConfusion hc), fun _ => rfl,
      (fun hc => Option.noConfusion hc),
      (fun url2 hc => Option.noConfusion hc),
      (fun msg2 hres => hres),
      (fun msg2 hc => Option.noConfusion hc)⟩
  | none =>
    by_cases hx : (runDockerCommand env.proc).exitCode = 0
    · cases hf : findRenderedVideo env.fs (outputDirOf env jobId) (sceneNameOf code) with
      | none =>
        have he : (compileVideo env jobId code).1.error =
            some "Video file not found in output directory" := by
          simp [compileVideo, hwt, hx, hf]
        have hu : (compileVideo env jobId code).1.url = "" := by
          simp [compileVideo, hwt, hx, hf]
        rw [he, hu]
        exact ⟨(fun hc => Option.noConfusion hc), fun _ => rfl,
          (fun _ hx2 => absurd hx hx2),
          (fun url2 _ _ hfn _ => absurd rfl hfn),
          (fun msg2 hres => Option.noConfusion hres),
          (fun msg2 _ _ hfn _ => absurd rfl hfn)⟩
      | some p =>
        cases hup : env.upload with
        | err msg1 =>
          have he : (compileVideo env jobId code).1.error = some msg1 := by
            simp [compileVideo, hwt, hx, hf, hup]
          have hu : (compileVideo env jobId code).1.url = "" := by
            simp [compileVideo, hwt, hx, hf, hup]
          rw [he, hu]
          refine ⟨(fun hc => Option.noConfusion hc), fun _ => rfl,
            (fun _ hx2 => absurd hx hx2),
            (fun url2 _ _ _ hok => UploadOutcome.noConfusion hok),
            (fun msg2 hres => Option.noConfusion hres),
            (fun msg2 _ _ _ herr => ?_)⟩
          injection herr with hh
          rw [hh]
        | ok url =>
          have he : (compileVideo env jobId code).1.error = none := by
            simp [compileVideo, hwt, hx, hf, hup]
          have hu : (compileVideo env jobId code).1.url = url := by
            simp [compileVideo, hwt, hx, hf, hup]
          rw [he, hu]
          refine ⟨fun _ => ⟨rfl, hx, (fun hc => Option.noConfusion hc), rfl⟩,
            fun hc => absurd rfl hc,
            (fun _ hx2 => absurd hx hx2),
            (fun url2 _ _ _ hok => ⟨rfl, ?_⟩),
            (fun msg2 hres => Option.noConfusion hres),
            (fun msg2 _ _ _ herr => UploadOutcome.noConfusion herr)⟩
          injection hok with hh
    · have he : (compileVideo env jobId code).1.error =
          some (if (runDockerCommand env.proc).stderr = ""
            then "Unknown compilation error" else (runDockerCommand env.proc).stderr) := by
        simp [compileVideo, hwt, hx]
      have hu : (compileVideo env jobId code).1.url = "" := by
        simp [compileVideo, hwt, hx]
      rw [he, hu]
      refine ⟨(fun hc => Option.noConfusion hc), fun _ => rfl, fun _ _ => ?_,
        (fun url2 _ hx2 _ _ => absurd hx2 hx),
        (fun msg2 hres => Option.noConfusion hres),
        (fun msg2 _ hx2 _ _ => absurd hx2 hx)⟩
      by_cases hs : (runDockerCommand env.proc).stderr = ""
      · simp only [if_pos hs, Option.getD_some]
        decide
      · simp only [if_neg hs, Option.getD_some]
        exact hs

/-- C9, witness for the amended theorem: the success-conditions-imply-no-error
direction instantiated at a concrete fully successful run. -/
theorem compileVideo_error_partition_witness :
    (compileVideo envOk "j" "c").1.error = none
    ∧ (compileVideo envOk "j" "c").1.url = "https://sb/videos/j.mp4" :=
  (compileVideo_error_partition envOk "j" "c").2.2.2.1 "https://sb/videos/j.mp4" rfl
    (by decide) (by decide) rfl

end ManimApi
